import Mathlib

/-!
Shallow embedding of the corteca-cli starter templates and of the minimal
scaffolding generator specified for them.  The two shipped template files
(src/data/templates/c and src/data/templates/cpp) are copied byte for byte
into `cBodyChars` and `cppBodyChars`; the generator components (template
store, substitution engine, file emitter, driver), which are not present in
the repository sources, are modelled from the spec.  Strings are embedded as
`List Char` throughout.
-/

set_option maxRecDepth 100000

namespace Corteca

/-- Body of the shipped C template, src/data/templates/c, copied byte for byte. -/
def cBodyChars : List Char :=
  ['#', 'i', 'n', 'c', 'l', 'u', 'd', 'e', ' ', '<', 's', 't', 'd', 'i', 'o', '.', 'h', '>', 
   '\n', '#', 'i', 'n', 'c', 'l', 'u', 'd', 'e', ' ', '<', 'u', 'n', 'i', 's', 't', 'd', '.', 
   'h', '>', '\n', '#', 'i', 'n', 'c', 'l', 'u', 'd', 'e', ' ', '<', 't', 'i', 'm', 'e', '.', 
   'h', '>', '\n', '\n', '/', '*', '\n', ' ', ' ', ' ', ' ', '\x7b', '\x7b', ' ', '.', 'a', 'p', 
   'p', '.', 't', 'i', 't', 'l', 'e', ' ', '\x7d', '\x7d', '\n', ' ', ' ', ' ', ' ', 'a', 'u', 
   't', 'h', 'o', 'r', ':', ' ', '\x7b', '\x7b', ' ', '.', 'a', 'p', 'p', '.', 'a', 'u', 't', 
   'h', 'o', 'r', ' ', '\x7d', '\x7d', '\n', '*', '/', '\n', '\n', '/', '/', '\x7b', '\x7b', 'i', 
   'f', ' ', '.', 'a', 'p', 'p', '.', 'o', 'p', 't', 'i', 'o', 'n', 's', '.', 'i', 'n', 'c', 'l', 
   'u', 'd', 'e', '_', 'l', 'i', 'b', 'h', 'l', 'a', 'p', 'i', '\x7d', '\x7d', '#', 'i', 'n', 
   'c', 'l', 'u', 'd', 'e', ' ', '<', 'l', 'i', 'b', 'h', 'l', 'a', 'p', 'i', '.', 'h', '>', 
   '\x7b', '\x7b', 'e', 'n', 'd', '\x7d', '\x7d', '\n', '\n', 'i', 'n', 't', ' ', 'm', 'a', 'i', 
   'n', '(', ')', '\n', '\x7b', '\n', '\n', ' ', ' ', ' ', 'p', 'r', 'i', 'n', 't', 'f', '(', 
   '\x22', 'H', 'e', 'l', 'l', 'o', ' ', 'f', 'r', 'o', 'm', ' ', '%', 's', '\x5c', 'n', '\x22', 
   ',', ' ', '\x22', '\x7b', '\x7b', '.', 'a', 'p', 'p', '.', 't', 'i', 't', 'l', 'e', '\x7d', 
   '\x7d', '\x22', ')', ';', '\n', '\n', ' ', ' ', ' ', 'f', 'o', 'r', ' ', '(', ';', ';', ')', 
   '\n', ' ', ' ', ' ', '\x7b', '\n', ' ', ' ', ' ', ' ', ' ', ' ', 's', 'l', 'e', 'e', 'p', '(', 
   '5', ')', ';', '\n', ' ', ' ', ' ', '\x7d', '\n', '\n', ' ', ' ', ' ', 'r', 'e', 't', 'u', 
   'r', 'n', ' ', '0', ';', '\n', '\x7d', '\n', '\n']

/-- Body of the shipped C++ template, src/data/templates/cpp, copied byte for byte. -/
def cppBodyChars : List Char :=
  ['#', 'i', 'n', 'c', 'l', 'u', 'd', 'e', ' ', '<', 'i', 'o', 's', 't', 'r', 'e', 'a', 'm', '>', 
   '\n', '#', 'i', 'n', 'c', 'l', 'u', 'd', 'e', ' ', '<', 'c', 'h', 'r', 'o', 'n', 'o', '>', 
   '\n', '#', 'i', 'n', 'c', 'l', 'u', 'd', 'e', ' ', '<', 't', 'h', 'r', 'e', 'a', 'd', '>', 
   '\n', '\n', '/', '*', '\n', ' ', ' ', ' ', ' ', '\x7b', '\x7b', ' ', '.', 'a', 'p', 'p', '.', 
   't', 'i', 't', 'l', 'e', ' ', '\x7d', '\x7d', '\n', ' ', ' ', ' ', ' ', 'a', 'u', 't', 'h', 
   'o', 'r', ':', ' ', '\x7b', '\x7b', ' ', '.', 'a', 'p', 'p', '.', 'a', 'u', 't', 'h', 'o', 
   'r', ' ', '\x7d', '\x7d', '\n', '*', '/', '\n', '\n', '/', '/', '\x7b', '\x7b', 'i', 'f', ' ', 
   '.', 'a', 'p', 'p', '.', 'o', 'p', 't', 'i', 'o', 'n', 's', '.', 'i', 'n', 'c', 'l', 'u', 'd', 
   'e', '_', 'l', 'i', 'b', 'h', 'l', 'a', 'p', 'i', '\x7d', '\x7d', '#', 'i', 'n', 'c', 'l', 
   'u', 'd', 'e', ' ', '<', 'l', 'i', 'b', 'h', 'l', 'a', 'p', 'i', '.', 'h', '>', '\x7b', 
   '\x7b', 'e', 'n', 'd', '\x7d', '\x7d', '\n', '\n', 'i', 'n', 't', ' ', 'm', 'a', 'i', 'n', 
   '(', ')', '\n', '\x7b', '\n', ' ', ' ', ' ', ' ', 's', 't', 'd', ':', ':', 'c', 'o', 'u', 't', 
   ' ', '<', '<', ' ', '\x22', 'H', 'e', 'l', 'l', 'o', ' ', 'W', 'o', 'r', 'l', 'd', ' ', 'f', 
   'r', 'o', 'm', ' ', '\x22', ' ', '<', '<', ' ', '\x22', '\x7b', '\x7b', '.', 'a', 'p', 'p', 
   '.', 't', 'i', 't', 'l', 'e', '\x7d', '\x7d', '\x22', ' ', '<', '<', ' ', 's', 't', 'd', ':', 
   ':', 'e', 'n', 'd', 'l', ';', '\n', ' ', ' ', ' ', ' ', 'f', 'o', 'r', ' ', '(', ';', ';', 
   ')', ' ', '\x7b', '\n', ' ', ' ', ' ', ' ', ' ', ' ', ' ', ' ', 's', 't', 'd', ':', ':', 't', 
   'h', 'i', 's', '_', 't', 'h', 'r', 'e', 'a', 'd', ':', ':', 's', 'l', 'e', 'e', 'p', '_', 'f', 
   'o', 'r', '(', 's', 't', 'd', ':', ':', 'c', 'h', 'r', 'o', 'n', 'o', ':', ':', 's', 'e', 'c', 
   'o', 'n', 'd', 's', '(', '5', ')', ')', ';', '\n', ' ', ' ', ' ', ' ', '\x7d', '\n', ' ', ' ', 
   ' ', ' ', 'r', 'e', 't', 'u', 'r', 'n', ' ', '0', ';', '\n', '\x7d']

/-- File-name pattern of the C template (the template file's own name). -/
def cPatternChars : List Char :=
  ['\x7b', '\x7b', '.', 'a', 'p', 'p', '.', 'n', 'a', 'm', 'e', '\x7d', '\x7d', '.', 'c']

/-- File-name pattern of the C++ template. -/
def cppPatternChars : List Char :=
  ['\x7b', '\x7b', '.', 'a', 'p', 'p', '.', 'n', 'a', 'm', 'e', '\x7d', '\x7d', '.', 'c', 'p', 
   'p']

/-- Literal text of the C template before the title marker. -/
def chunkCA : List Char :=
  ['#', 'i', 'n', 'c', 'l', 'u', 'd', 'e', ' ', '<', 's', 't', 'd', 'i', 'o', '.', 'h', '>', 
   '\n', '#', 'i', 'n', 'c', 'l', 'u', 'd', 'e', ' ', '<', 'u', 'n', 'i', 's', 't', 'd', '.', 
   'h', '>', '\n', '#', 'i', 'n', 'c', 'l', 'u', 'd', 'e', ' ', '<', 't', 'i', 'm', 'e', '.', 
   'h', '>', '\n', '\n', '/', '*', '\n', ' ', ' ', ' ', ' ']

/-- Literal text of the C template between the title and author markers. -/
def chunkCB : List Char :=
  ['\n', ' ', ' ', ' ', ' ', 'a', 'u', 't', 'h', 'o', 'r', ':', ' ']

/-- Literal text of the C template between the author marker and the conditional block. -/
def chunkCC1 : List Char :=
  ['\n', '*', '/', '\n', '\n', '/', '/']

/-- Literal text of the C template between the conditional block and the second title marker. -/
def chunkCC2 : List Char :=
  ['\n', '\n', 'i', 'n', 't', ' ', 'm', 'a', 'i', 'n', '(', ')', '\n', '\x7b', '\n', '\n', ' ', 
   ' ', ' ', 'p', 'r', 'i', 'n', 't', 'f', '(', '\x22', 'H', 'e', 'l', 'l', 'o', ' ', 'f', 'r', 
   'o', 'm', ' ', '%', 's', '\x5c', 'n', '\x22', ',', ' ', '\x22']

/-- Literal text of the C template after the second title marker. -/
def chunkCD : List Char :=
  ['\x22', ')', ';', '\n', '\n', ' ', ' ', ' ', 'f', 'o', 'r', ' ', '(', ';', ';', ')', '\n', 
   ' ', ' ', ' ', '\x7b', '\n', ' ', ' ', ' ', ' ', ' ', ' ', 's', 'l', 'e', 'e', 'p', '(', '5', 
   ')', ';', '\n', ' ', ' ', ' ', '\x7d', '\n', '\n', ' ', ' ', ' ', 'r', 'e', 't', 'u', 'r', 
   'n', ' ', '0', ';', '\n', '\x7d', '\n', '\n']

/-- Literal text of the C++ template before the title marker. -/
def chunkPA : List Char :=
  ['#', 'i', 'n', 'c', 'l', 'u', 'd', 'e', ' ', '<', 'i', 'o', 's', 't', 'r', 'e', 'a', 'm', '>', 
   '\n', '#', 'i', 'n', 'c', 'l', 'u', 'd', 'e', ' ', '<', 'c', 'h', 'r', 'o', 'n', 'o', '>', 
   '\n', '#', 'i', 'n', 'c', 'l', 'u', 'd', 'e', ' ', '<', 't', 'h', 'r', 'e', 'a', 'd', '>', 
   '\n', '\n', '/', '*', '\n', ' ', ' ', ' ', ' ']

/-- Literal text of the C++ template between the title and author markers. -/
def chunkPB : List Char :=
  ['\n', ' ', ' ', ' ', ' ', 'a', 'u', 't', 'h', 'o', 'r', ':', ' ']

/-- Literal text of the C++ template between the author marker and the conditional block. -/
def chunkPC1 : List Char :=
  ['\n', '*', '/', '\n', '\n', '/', '/']

/-- Literal text of the C++ template between the conditional block and the second title marker. -/
def chunkPC2 : List Char :=
  ['\n', '\n', 'i', 'n', 't', ' ', 'm', 'a', 'i', 'n', '(', ')', '\n', '\x7b', '\n', ' ', ' ', 
   ' ', ' ', 's', 't', 'd', ':', ':', 'c', 'o', 'u', 't', ' ', '<', '<', ' ', '\x22', 'H', 'e', 
   'l', 'l', 'o', ' ', 'W', 'o', 'r', 'l', 'd', ' ', 'f', 'r', 'o', 'm', ' ', '\x22', ' ', '<', 
   '<', ' ', '\x22']

/-- Literal text of the C++ template after the second title marker. -/
def chunkPD : List Char :=
  ['\x22', ' ', '<', '<', ' ', 's', 't', 'd', ':', ':', 'e', 'n', 'd', 'l', ';', '\n', ' ', ' ', 
   ' ', ' ', 'f', 'o', 'r', ' ', '(', ';', ';', ')', ' ', '\x7b', '\n', ' ', ' ', ' ', ' ', ' ', 
   ' ', ' ', ' ', 's', 't', 'd', ':', ':', 't', 'h', 'i', 's', '_', 't', 'h', 'r', 'e', 'a', 'd', 
   ':', ':', 's', 'l', 'e', 'e', 'p', '_', 'f', 'o', 'r', '(', 's', 't', 'd', ':', ':', 'c', 'h', 
   'r', 'o', 'n', 'o', ':', ':', 's', 'e', 'c', 'o', 'n', 'd', 's', '(', '5', ')', ')', ';', 
   '\n', ' ', ' ', ' ', ' ', '\x7d', '\n', ' ', ' ', ' ', ' ', 'r', 'e', 't', 'u', 'r', 'n', ' ', 
   '0', ';', '\n', '\x7d']

/-- The literal text enclosed by the conditional markers on line 10 of both templates. -/
def incText : List Char :=
  ['#', 'i', 'n', 'c', 'l', 'u', 'd', 'e', ' ', '<', 'l', 'i', 'b', 'h', 'l', 'a', 'p', 'i', '.', 
   'h', '>']

/-- The opening conditional marker as it appears on line 10 of both templates. -/
def ifMarkerText : List Char :=
  ['\x7b', '\x7b', 'i', 'f', ' ', '.', 'a', 'p', 'p', '.', 'o', 'p', 't', 'i', 'o', 'n', 's', 
   '.', 'i', 'n', 'c', 'l', 'u', 'd', 'e', '_', 'l', 'i', 'b', 'h', 'l', 'a', 'p', 'i', '\x7d', 
   '\x7d']

/-- The closing conditional marker. -/
def endMarkerText : List Char :=
  ['\x7b', '\x7b', 'e', 'n', 'd', '\x7d', '\x7d']

/-- Placeholder path addressing the name field. -/
def namePath : List Char :=
  ['.', 'a', 'p', 'p', '.', 'n', 'a', 'm', 'e']

/-- Placeholder path addressing the title field. -/
def titlePath : List Char :=
  ['.', 'a', 'p', 'p', '.', 't', 'i', 't', 'l', 'e']

/-- Placeholder path addressing the author field. -/
def authorPath : List Char :=
  ['.', 'a', 'p', 'p', '.', 'a', 'u', 't', 'h', 'o', 'r']

/-- Placeholder path addressing the include_libhlapi option. -/
def incFlagPath : List Char :=
  ['.', 'a', 'p', 'p', '.', 'o', 'p', 't', 'i', 'o', 'n', 's', '.', 'i', 'n', 'c', 'l', 'u', 'd', 
   'e', '_', 'l', 'i', 'b', 'h', 'l', 'a', 'p', 'i']

/-- Leading token that distinguishes a conditional marker from a substitution marker. -/
def ifWordChars : List Char :=
  ['i', 'f', ' ']

/-- Marker word that closes a conditional block. -/
def endWordChars : List Char :=
  ['e', 'n', 'd']

/-- Ecosystem key of the C template. -/
def cEcoKey : List Char :=
  ['c']

/-- Ecosystem key of the C++ template. -/
def cppEcoKey : List Char :=
  ['c', 'p', 'p']

/-- Name field of the end-to-end scenario context. -/
def demoNameChars : List Char :=
  ['d', 'e', 'm', 'o']

/-- Title field of the end-to-end scenario context. -/
def demoTitleChars : List Char :=
  ['D', 'e', 'm', 'o', ' ', 'A', 'p', 'p']

/-- Author field of the end-to-end scenario context. -/
def demoAuthorChars : List Char :=
  ['J', 'a', 'n', 'e']

/-- Expected substituted file name for the C template in the scenario. -/
def demoDotC : List Char :=
  ['d', 'e', 'm', 'o', '.', 'c']

/-- Expected substituted file name for the C++ template in the scenario. -/
def demoDotCpp : List Char :=
  ['d', 'e', 'm', 'o', '.', 'c', 'p', 'p']

/-- The opening marker sequence. -/
def openBraces : List Char :=
  ['\x7b', '\x7b']

/-- The closing marker sequence. -/
def closeBraces : List Char :=
  ['\x7d', '\x7d']

/-- The include directive preceded by the C line-comment prefix. -/
def commentedInc : List Char :=
  ['/', '/', '#', 'i', 'n', 'c', 'l', 'u', 'd', 'e', ' ', '<', 'l', 'i', 'b', 'h', 'l', 'a', 'p', 
   'i', '.', 'h', '>']

/-- An ecosystem key with no registered template. -/
def nonexistentKey : List Char :=
  ['n', 'o', 'n', 'e', 'x', 'i', 's', 't', 'e', 'n', 't']

/-- Two-character suffix appended to the substituted name by the C file-name pattern. -/
def dotCChars : List Char := ['.', 'c']

/-- Four-character suffix appended to the substituted name by the C++ file-name pattern. -/
def dotCppChars : List Char := ['.', 'c', 'p', 'p']

/-- Modelled from the spec: the boolean options mapping of a render context.
The shipped templates consult exactly one flag, include_libhlapi, so the
mapping's domain is that single flag name. -/
structure Options where
  include_libhlapi : Bool
deriving DecidableEq

/-- Modelled from the spec: the per-invocation render context of section 3 of
the spec: name, title, author and the boolean options mapping. -/
structure RenderContext where
  name : List Char
  title : List Char
  author : List Char
  options : Options
deriving DecidableEq

/-- A valid render context per the spec: name, title and author are non-empty. -/
def ValidCtx (ctx : RenderContext) : Prop :=
  ctx.name ≠ [] ∧ ctx.title ≠ [] ∧ ctx.author ≠ []

/-- Modelled from the spec: errors of the substitution engine.  An unknown
placeholder path is an unresolved reference; an unterminated marker or
conditional block is a malformed template. -/
inductive ScanError where
  | unresolvedReference
  | malformed
deriving DecidableEq

/-- Modelled from the spec: a template of the template store: ecosystem key,
file-name pattern and body. -/
structure Template where
  ecosystem : List Char
  fileNamePattern : List Char
  body : List Char
deriving DecidableEq

/-- Modelled from the spec: the substitution engine's result record. -/
structure RenderedFile where
  path : List Char
  content : List Char
deriving DecidableEq

/-- Strip leading and trailing spaces from a marker's inner text. -/
def trimSpaces (l : List Char) : List Char :=
  ((l.dropWhile fun c => c == ' ').reverse.dropWhile fun c => c == ' ').reverse

/-- Modelled from the spec: resolve a substitution placeholder path against
the context fields; unknown paths are unresolved. -/
def resolvePath (ctx : RenderContext) (p : List Char) : Option (List Char) :=
  if p = namePath then some ctx.name
  else if p = titlePath then some ctx.title
  else if p = authorPath then some ctx.author
  else none

/-- Modelled from the spec: resolve a conditional path .app.options.flag to
the addressed boolean field of the options mapping. -/
def resolveFlag (ctx : RenderContext) (p : List Char) : Option Bool :=
  if p = incFlagPath then some ctx.options.include_libhlapi else none

/-- Modelled from the spec: states of the scanner of the substitution engine:
copying literal text, possibly inside a conditional block, or accumulating
the inner text of a marker. -/
inductive ScanState where
  | lit
  | litBrace
  | ph (acc : List Char)
  | phBrace (acc : List Char)
  | blk (keep : Bool)
  | blkBrace (keep : Bool)
  | blkPh (keep : Bool) (acc : List Char)
  | blkPhBrace (keep : Bool) (acc : List Char)

/-- Prepend one literal character to a successful scan result. -/
def emitChar (c : Char) : Except ScanError (List Char) → Except ScanError (List Char)
  | .ok l => .ok (c :: l)
  | .error e => .error e

/-- Splice a substituted value in front of a successful scan result. -/
def emitValue (v : List Char) : Except ScanError (List Char) → Except ScanError (List Char)
  | .ok l => .ok (v ++ l)
  | .error e => .error e

/-- Modelled from the spec: the scanner of the substitution engine.  It scans
the input for markers opened by two braces and closed by two braces, replaces
each placeholder marker by the addressed field's value, keeps or drops the
text between a conditional marker and its end marker according to the
addressed boolean flag, and copies all other characters verbatim.  Marker
blocks do not nest. -/
def scan (ctx : RenderContext) : ScanState → List Char → Except ScanError (List Char)
  | .lit, [] => .ok []
  | .litBrace, [] => .ok ['\x7b']
  | .ph _, [] => .error .malformed
  | .phBrace _, [] => .error .malformed
  | .blk _, [] => .error .malformed
  | .blkBrace _, [] => .error .malformed
  | .blkPh _ _, [] => .error .malformed
  | .blkPhBrace _ _, [] => .error .malformed
  | .lit, c :: rest =>
      if c = '\x7b' then scan ctx .litBrace rest
      else emitChar c (scan ctx .lit rest)
  | .litBrace, c :: rest =>
      if c = '\x7b' then scan ctx (.ph []) rest
      else emitChar '\x7b' (emitChar c (scan ctx .lit rest))
  | .ph acc, c :: rest =>
      if c = '\x7d' then scan ctx (.phBrace acc) rest
      else scan ctx (.ph (c :: acc)) rest
  | .phBrace acc, c :: rest =>
      if c = '\x7d' then
        let p := trimSpaces acc.reverse
        if ifWordChars.isPrefixOf p then
          match resolveFlag ctx (trimSpaces (p.drop 3)) with
          | some b => scan ctx (.blk b) rest
          | none => .error .unresolvedReference
        else
          match resolvePath ctx p with
          | some v => emitValue v (scan ctx .lit rest)
          | none => .error .unresolvedReference
      else scan ctx (.ph (c :: '\x7d' :: acc)) rest
  | .blk k, c :: rest =>
      if c = '\x7b' then scan ctx (.blkBrace k) rest
      else if k then emitChar c (scan ctx (.blk k) rest)
      else scan ctx (.blk k) rest
  | .blkBrace k, c :: rest =>
      if c = '\x7b' then scan ctx (.blkPh k []) rest
      else if k then emitChar '\x7b' (emitChar c (scan ctx (.blk k) rest))
      else scan ctx (.blk k) rest
  | .blkPh k acc, c :: rest =>
      if c = '\x7d' then scan ctx (.blkPhBrace k acc) rest
      else scan ctx (.blkPh k (c :: acc)) rest
  | .blkPhBrace k acc, c :: rest =>
      if c = '\x7d' then
        let p := trimSpaces acc.reverse
        if p = endWordChars then scan ctx .lit rest
        else if ifWordChars.isPrefixOf p then .error .malformed
        else
          match resolvePath ctx p with
          | some v =>
              if k then emitValue v (scan ctx (.blk k) rest)
              else scan ctx (.blk k) rest
          | none => .error .unresolvedReference
      else scan ctx (.blkPh k (c :: '\x7d' :: acc)) rest

/-- The shipped C template, registered under ecosystem key c. -/
def cTemplate : Template :=
  ⟨cEcoKey, cPatternChars, cBodyChars⟩

/-- The shipped C++ template, registered under ecosystem key cpp. -/
def cppTemplate : Template :=
  ⟨cppEcoKey, cppPatternChars, cppBodyChars⟩

/-- Modelled from the spec: render a template against a context; the body and
the file-name pattern undergo the same substitution. -/
def render (t : Template) (ctx : RenderContext) : Except ScanError RenderedFile :=
  match scan ctx .lit t.fileNamePattern, scan ctx .lit t.body with
  | .ok p, .ok c => .ok ⟨p, c⟩
  | .error e, _ => .error e
  | _, .error e => .error e

/-- Modelled from the spec: failure of the template store lookup. -/
inductive LookupError where
  | notFound
deriving DecidableEq

/-- Modelled from the spec: the template store holding the two shipped templates. -/
def templateStore : List Template := [cTemplate, cppTemplate]

/-- Modelled from the spec: look an ecosystem key up in the template store. -/
def lookup (key : List Char) : Except LookupError Template :=
  match templateStore.find? fun t => t.ecosystem == key with
  | some t => .ok t
  | none => .error .notFound

/-- Modelled from the spec: errors surfaced by the driver. -/
inductive DriverError where
  | notFound
  | validationError
  | unresolvedReference
  | malformed
deriving DecidableEq

/-- Modelled from the spec: the driver validates the ecosystem key, then the
descriptor fields, then renders; on success exactly one file is written. -/
def driver (key : List Char) (ctx : RenderContext) : Except DriverError (List RenderedFile) :=
  match lookup key with
  | .error .notFound => .error .notFound
  | .ok t =>
      if ctx.name = [] ∨ ctx.title = [] ∨ ctx.author = [] then .error .validationError
      else
        match render t ctx with
        | .ok f => .ok [f]
        | .error .unresolvedReference => .error .unresolvedReference
        | .error .malformed => .error .malformed

/-- Files actually written by a driver invocation: none when it fails. -/
def writtenFiles : Except DriverError (List RenderedFile) → List RenderedFile
  | .ok fs => fs
  | .error _ => []

/-- The content of a successful render, or nothing on failure. -/
def contentOf : Except ScanError RenderedFile → List Char
  | .ok f => f.content
  | .error _ => []

/-- The output path of a successful render, or nothing on failure. -/
def pathOf : Except ScanError RenderedFile → List Char
  | .ok f => f.path
  | .error _ => []

/-- Substring test: true when p occurs contiguously inside l. -/
def hasSub (p : List Char) : List Char → Bool
  | [] => p.isPrefixOf []
  | c :: rest => p.isPrefixOf (c :: rest) || hasSub p rest

/-- Closed form of the C template body's rendering: the literal chunks with
the title and author spliced in, and the conditional text kept according to
the flag. -/
def cOut (b : Bool) (t a : List Char) : List Char :=
  chunkCA ++ (t ++ (chunkCB ++ (a ++ (chunkCC1 ++
    ((if b then incText else []) ++ (chunkCC2 ++ (t ++ chunkCD)))))))

/-- Closed form of the C++ template body's rendering. -/
def cppOut (b : Bool) (t a : List Char) : List Char :=
  chunkPA ++ (t ++ (chunkPB ++ (a ++ (chunkPC1 ++
    ((if b then incText else []) ++ (chunkPC2 ++ (t ++ chunkPD)))))))

/-- The end-to-end scenario context of the spec: ecosystem c, name demo,
title Demo App, author Jane, include_libhlapi true. -/
def demoCtx : RenderContext :=
  ⟨demoNameChars, demoTitleChars, demoAuthorChars, ⟨true⟩⟩


/-- The conditional text kept on line 10: the enclosed literal when the flag
is true, nothing when it is false. -/
def condText (b : Bool) : List Char :=
  if b then incText else []

/-- True when p occurs at the very start of l or immediately after a newline,
i.e. when p begins a line of l. -/
def atLineStart (p l : List Char) : Bool :=
  p.isPrefixOf l || hasSub ('\n' :: p) l

/-- The two literal chunks surrounding the conditional block of the C
template, merged: what line 10 contributes when the flag is false. -/
def cFalseMid : List Char := chunkCC1 ++ chunkCC2

/-- The literal text the C template contributes between the author splice and
the second title splice when the flag is true. -/
def cTrueMid : List Char := chunkCC1 ++ (incText ++ chunkCC2)

/-- The merged middle chunk of the C++ template for a false flag. -/
def pFalseMid : List Char := chunkPC1 ++ chunkPC2

/-- The merged middle chunk of the C++ template for a true flag. -/
def pTrueMid : List Char := chunkPC1 ++ (incText ++ chunkPC2)

/-- The part of line 9 and earlier that separates the author splice from the
newline that opens line 10 (the text `*/` and surrounding newlines). -/
def cLine10Pre : List Char := ['\n', '*', '/', '\n']

/-- The tail of the C template's post-conditional chunk, after the newline
that closes line 10. -/
def cC2Tail : List Char := chunkCC2.drop 1

/-- The tail of the C++ template's post-conditional chunk, after the newline
that closes line 10. -/
def pC2Tail : List Char := chunkPC2.drop 1

/-- A valid context whose title is the two-character marker-opening sequence:
it witnesses that substituted field values can reintroduce marker sequences. -/
def bracesTitleCtx : RenderContext :=
  ⟨demoNameChars, openBraces, demoAuthorChars, ⟨true⟩⟩

/-- A valid context whose title is the conditional block's enclosed text and
whose include_libhlapi flag is false. -/
def incTitleCtx : RenderContext :=
  ⟨demoNameChars, incText, demoAuthorChars, ⟨false⟩⟩

/-- A context whose author field is empty (the missing-author scenario). -/
def noAuthorCtx : RenderContext :=
  ⟨demoNameChars, demoTitleChars, [], ⟨true⟩⟩

/-- The scenario context with a different name and all other fields equal. -/
def otherNameCtx : RenderContext :=
  ⟨['o', 't', 'h', 'e', 'r'], demoTitleChars, demoAuthorChars, ⟨true⟩⟩

theorem render_c (n t a : List Char) (b : Bool) :
    render cTemplate ⟨n, t, a, ⟨b⟩⟩ = .ok ⟨n ++ dotCChars, cOut b t a⟩ := by
  cases b <;> rfl

theorem render_cpp (n t a : List Char) (b : Bool) :
    render cppTemplate ⟨n, t, a, ⟨b⟩⟩ = .ok ⟨n ++ dotCppChars, cppOut b t a⟩ := by
  cases b <;> rfl

theorem cOut_false_shape (t a : List Char) :
    cOut false t a = chunkCA ++ (t ++ (chunkCB ++ (a ++ (cFalseMid ++ (t ++ chunkCD))))) := rfl

theorem cOut_true_shape (t a : List Char) :
    cOut true t a = chunkCA ++ (t ++ (chunkCB ++ (a ++ (cTrueMid ++ (t ++ chunkCD))))) := rfl

theorem cppOut_false_shape (t a : List Char) :
    cppOut false t a = chunkPA ++ (t ++ (chunkPB ++ (a ++ (pFalseMid ++ (t ++ chunkPD))))) := rfl

theorem cppOut_true_shape (t a : List Char) :
    cppOut true t a = chunkPA ++ (t ++ (chunkPB ++ (a ++ (pTrueMid ++ (t ++ chunkPD))))) := rfl

theorem hasSub_of_prefix {p l : List Char} (h : p <+: l) : hasSub p l = true := by
  cases l with
  | nil => simp only [hasSub]; exact List.isPrefixOf_iff_prefix.mpr h
  | cons c rest =>
      simp only [hasSub, Bool.or_eq_true]
      exact Or.inl (List.isPrefixOf_iff_prefix.mpr h)

theorem hasSub_append_right {p y : List Char} (x : List Char) (h : hasSub p y = true) :
    hasSub p (x ++ y) = true := by
  induction x with
  | nil => simpa using h
  | cons c x ih =>
      simp only [List.cons_append, hasSub, Bool.or_eq_true]
      exact Or.inr ih

theorem hasSub_append_left {p x : List Char} (y : List Char) (h : hasSub p x = true) :
    hasSub p (x ++ y) = true := by
  induction x with
  | nil =>
      have hp : p = [] := by
        simpa [hasSub, List.isPrefixOf_iff_prefix, List.prefix_nil] using h
      subst hp
      exact hasSub_of_prefix List.nil_prefix
  | cons c x ih =>
      simp only [hasSub, Bool.or_eq_true] at h
      rcases h with h | h
      · exact hasSub_of_prefix ((List.isPrefixOf_iff_prefix.mp h).trans (List.prefix_append _ _))
      · simp only [List.cons_append, hasSub, Bool.or_eq_true]
        exact Or.inr (ih h)

theorem hasSub_append_split {p x y : List Char} (h : hasSub p (x ++ y) = true) :
    hasSub p x = true ∨ hasSub p y = true ∨
      ∃ i, 0 < i ∧ i < p.length ∧ p.take i <:+ x ∧ p.drop i <+: y := by
  induction x with
  | nil => exact Or.inr (Or.inl (by simpa using h))
  | cons c x ih =>
      rw [List.cons_append] at h
      simp only [hasSub, Bool.or_eq_true] at h
      rcases h with h | h
      · have hp : p <+: (c :: x) ++ y := by
          rw [List.cons_append]
          exact List.isPrefixOf_iff_prefix.mp h
        by_cases hlen : p.length ≤ (c :: x).length
        · left
          exact hasSub_of_prefix (List.prefix_of_prefix_length_le hp (List.prefix_append _ _) hlen)
        · push_neg at hlen
          have hpt : p = List.take p.length ((c :: x) ++ y) := List.prefix_iff_eq_take.mp hp
          have htake : p.take (c :: x).length = c :: x := by
            conv_lhs => rw [hpt]
            rw [List.take_take, Nat.min_eq_left (Nat.le_of_lt hlen), List.take_left]
          have hsplit : p = (c :: x) ++ p.drop (c :: x).length := by
            conv_lhs => rw [← List.take_append_drop (c :: x).length p]
            rw [htake]
          have hdrop : p.drop (c :: x).length <+: y :=
            (List.prefix_append_right_inj (c :: x)).mp (hsplit ▸ hp)
          exact Or.inr (Or.inr ⟨(c :: x).length, by simp, hlen,
            by rw [htake], hdrop⟩)
      · rcases ih h with h | h | ⟨i, h1, h2, h3, h4⟩
        · left
          simp only [hasSub, Bool.or_eq_true]
          exact Or.inr h
        · exact Or.inr (Or.inl h)
        · exact Or.inr (Or.inr ⟨i, h1, h2, h3.trans (List.suffix_cons c x), h4⟩)

theorem hasSub_append_false_left (p x y : List Char)
    (hx : hasSub p x = false) (hy : hasSub p y = false)
    (hs : ∀ i, i < p.length → 0 < i → (p.take i).isSuffixOf x = false) :
    hasSub p (x ++ y) = false := by
  cases hval : hasSub p (x ++ y) with
  | false => rfl
  | true =>
      exfalso
      rcases hasSub_append_split hval with h | h | ⟨i, h1, h2, h3, _⟩
      · simp [hx] at h
      · simp [hy] at h
      · have hc := hs i h2 h1
        simp [List.isSuffixOf_iff_suffix.mpr h3] at hc

theorem hasSub_append_false_right (p x y z : List Char)
    (hx : hasSub p x = false) (hyz : hasSub p (y ++ z) = false)
    (hs : ∀ i, i < p.length → 0 < i →
      (p.drop i).isPrefixOf y = false ∧ y.isPrefixOf (p.drop i) = false) :
    hasSub p (x ++ (y ++ z)) = false := by
  cases hval : hasSub p (x ++ (y ++ z)) with
  | false => rfl
  | true =>
      exfalso
      rcases hasSub_append_split hval with h | h | ⟨i, h1, h2, _, h4⟩
      · simp [hx] at h
      · simp [hyz] at h
      · rcases List.prefix_or_prefix_of_prefix h4 (List.prefix_append y z) with hc | hc
        · have hd := (hs i h2 h1).1
          simp [List.isPrefixOf_iff_prefix.mpr hc] at hd
        · have hd := (hs i h2 h1).2
          simp [List.isPrefixOf_iff_prefix.mpr hc] at hd

theorem hasSub_append_false_pair (p x y : List Char)
    (hx : hasSub p x = false) (hy : hasSub p y = false)
    (hs : ∀ i, i < p.length → 0 < i → (p.drop i).isPrefixOf y = false) :
    hasSub p (x ++ y) = false := by
  cases hval : hasSub p (x ++ y) with
  | false => rfl
  | true =>
      exfalso
      rcases hasSub_append_split hval with h | h | ⟨i, h1, h2, _, h4⟩
      · simp [hx] at h
      · simp [hy] at h
      · have hd := hs i h2 h1
        simp [List.isPrefixOf_iff_prefix.mpr h4] at hd

theorem hasSub_shape_false (p X1 X2 X3 X4 t a : List Char)
    (h1 : hasSub p X1 = false) (h2 : hasSub p X2 = false)
    (h3 : hasSub p X3 = false) (h4 : hasSub p X4 = false)
    (ht : hasSub p t = false) (ha : hasSub p a = false)
    (s1 : ∀ i, i < p.length → 0 < i → (p.take i).isSuffixOf X1 = false)
    (s2 : ∀ i, i < p.length → 0 < i →
      (p.drop i).isPrefixOf X2 = false ∧ X2.isPrefixOf (p.drop i) = false)
    (s3 : ∀ i, i < p.length → 0 < i → (p.take i).isSuffixOf X2 = false)
    (s4 : ∀ i, i < p.length → 0 < i →
      (p.drop i).isPrefixOf X3 = false ∧ X3.isPrefixOf (p.drop i) = false)
    (s5 : ∀ i, i < p.length → 0 < i → (p.take i).isSuffixOf X3 = false)
    (s6 : ∀ i, i < p.length → 0 < i → (p.drop i).isPrefixOf X4 = false) :
    hasSub p (X1 ++ (t ++ (X2 ++ (a ++ (X3 ++ (t ++ X4)))))) = false := by
  refine hasSub_append_false_left p X1 _ h1 ?_ s1
  refine hasSub_append_false_right p t X2 _ ht ?_ s2
  refine hasSub_append_false_left p X2 _ h2 ?_ s3
  refine hasSub_append_false_right p a X3 _ ha ?_ s4
  refine hasSub_append_false_left p X3 _ h3 ?_ s5
  exact hasSub_append_false_pair p t X4 ht h4 s6

/-- C1, counterexample: in the end-to-end scenario (ecosystem c, name demo,
title Demo App, author Jane, include_libhlapi true) the include directive is
never emitted at the start of a line: the comment prefix of line 10 lies
outside the conditional markers, so the rendered content carries the
directive only in the commented form. -/
theorem c1_counterexample :
    pathOf (render cTemplate demoCtx) = demoDotC ∧
    atLineStart incText (contentOf (render cTemplate demoCtx)) = false ∧
    hasSub commentedInc (contentOf (render cTemplate demoCtx)) = true := by
  refine ⟨rfl, rfl, rfl⟩

/-- C1, amended: the end-to-end scenario produces the file demo.c whose
content contains the include directive as the commented line starting
`//#include`, contains the greeting string Demo App, and contains no residual
marker sequences. -/
theorem c1_theorem :
    pathOf (render cTemplate demoCtx) = demoDotC ∧
    atLineStart commentedInc (contentOf (render cTemplate demoCtx)) = true ∧
    hasSub demoTitleChars (contentOf (render cTemplate demoCtx)) = true ∧
    hasSub openBraces (contentOf (render cTemplate demoCtx)) = false ∧
    hasSub closeBraces (contentOf (render cTemplate demoCtx)) = false := by
  refine ⟨rfl, rfl, rfl, rfl, rfl⟩

/-- C2, counterexample: a valid context whose include_libhlapi flag is false
but whose title equals the enclosed text makes the enclosed text appear in
the output, so the block's text is not entirely absent for every context. -/
theorem c2_counterexample :
    incTitleCtx.options.include_libhlapi = false ∧
    ValidCtx incTitleCtx ∧
    hasSub incText (contentOf (render cTemplate incTitleCtx)) = true := by
  refine ⟨rfl, ⟨by decide, by decide, by decide⟩, rfl⟩

/-- C2, amended: for every render context whose title and author do not
themselves contain the enclosed text or the conditional markers, a false
include_libhlapi flag leaves no trace of the conditional block (enclosed text
and both markers are absent from either template's rendered content), and a
true flag makes the enclosed literal text appear in either template's
rendered content. -/
theorem c2_theorem (ctx : RenderContext)
    (ht1 : hasSub incText ctx.title = false) (ha1 : hasSub incText ctx.author = false)
    (ht2 : hasSub ifMarkerText ctx.title = false) (ha2 : hasSub ifMarkerText ctx.author = false)
    (ht3 : hasSub endMarkerText ctx.title = false) (ha3 : hasSub endMarkerText ctx.author = false) :
    (ctx.options.include_libhlapi = false →
      hasSub incText (contentOf (render cTemplate ctx)) = false ∧
      hasSub ifMarkerText (contentOf (render cTemplate ctx)) = false ∧
      hasSub endMarkerText (contentOf (render cTemplate ctx)) = false ∧
      hasSub incText (contentOf (render cppTemplate ctx)) = false ∧
      hasSub ifMarkerText (contentOf (render cppTemplate ctx)) = false ∧
      hasSub endMarkerText (contentOf (render cppTemplate ctx)) = false) ∧
    (ctx.options.include_libhlapi = true →
      hasSub incText (contentOf (render cTemplate ctx)) = true ∧
      hasSub incText (contentOf (render cppTemplate ctx)) = true) := by
  obtain ⟨n, t, a, ⟨b⟩⟩ := ctx
  rw [render_c, render_cpp]
  cases b with
  | false =>
      constructor
      · intro _
        simp only [contentOf]
        rw [cOut_false_shape, cppOut_false_shape]
        refine ⟨?_, ?_, ?_, ?_, ?_, ?_⟩
        · exact hasSub_shape_false _ _ _ _ _ _ _ (by decide) (by decide) (by decide) (by decide)
            ht1 ha1 (by decide) (by decide) (by decide) (by decide) (by decide) (by decide)
        · exact hasSub_shape_false _ _ _ _ _ _ _ (by decide) (by decide) (by decide) (by decide)
            ht2 ha2 (by decide) (by decide) (by decide) (by decide) (by decide) (by decide)
        · exact hasSub_shape_false _ _ _ _ _ _ _ (by decide) (by decide) (by decide) (by decide)
            ht3 ha3 (by decide) (by decide) (by decide) (by decide) (by decide) (by decide)
        · exact hasSub_shape_false _ _ _ _ _ _ _ (by decide) (by decide) (by decide) (by decide)
            ht1 ha1 (by decide) (by decide) (by decide) (by decide) (by decide) (by decide)
        · exact hasSub_shape_false _ _ _ _ _ _ _ (by decide) (by decide) (by decide) (by decide)
            ht2 ha2 (by decide) (by decide) (by decide) (by decide) (by decide) (by decide)
        · exact hasSub_shape_false _ _ _ _ _ _ _ (by decide) (by decide) (by decide) (by decide)
            ht3 ha3 (by decide) (by decide) (by decide) (by decide) (by decide) (by decide)
      · intro hb
        exact Bool.noConfusion hb
  | true =>
      constructor
      · intro hb
        exact Bool.noConfusion hb
      · intro _
        simp only [contentOf]
        rw [cOut_true_shape, cppOut_true_shape]
        constructor
        · apply hasSub_append_right
          apply hasSub_append_right
          apply hasSub_append_right
          apply hasSub_append_right
          exact hasSub_append_left _ (by decide)
        · apply hasSub_append_right
          apply hasSub_append_right
          apply hasSub_append_right
          apply hasSub_append_right
          exact hasSub_append_left _ (by decide)

/-- C2, witness: the amended statement applied to the scenario context, whose
title and author contain neither the enclosed text nor the markers. -/
theorem c2_witness :
    hasSub incText demoCtx.title = false ∧ hasSub incText demoCtx.author = false ∧
    hasSub ifMarkerText demoCtx.title = false ∧ hasSub ifMarkerText demoCtx.author = false ∧
    hasSub endMarkerText demoCtx.title = false ∧ hasSub endMarkerText demoCtx.author = false ∧
    ((demoCtx.options.include_libhlapi = false →
      hasSub incText (contentOf (render cTemplate demoCtx)) = false ∧
      hasSub ifMarkerText (contentOf (render cTemplate demoCtx)) = false ∧
      hasSub endMarkerText (contentOf (render cTemplate demoCtx)) = false ∧
      hasSub incText (contentOf (render cppTemplate demoCtx)) = false ∧
      hasSub ifMarkerText (contentOf (render cppTemplate demoCtx)) = false ∧
      hasSub endMarkerText (contentOf (render cppTemplate demoCtx)) = false) ∧
    (demoCtx.options.include_libhlapi = true →
      hasSub incText (contentOf (render cTemplate demoCtx)) = true ∧
      hasSub incText (contentOf (render cppTemplate demoCtx)) = true)) :=
  ⟨by decide, by decide, by decide, by decide, by decide, by decide,
    c2_theorem demoCtx (by decide) (by decide) (by decide) (by decide) (by decide) (by decide)⟩

/-- C3, counterexample: a valid context (non-empty name, title, author) whose
title is the two-character sequence of opening braces makes the rendered
content contain a marker sequence, refuting the claim for all valid contexts. -/
theorem c3_counterexample :
    ValidCtx bracesTitleCtx ∧
    hasSub openBraces (contentOf (render cTemplate bracesTitleCtx)) = true := by
  refine ⟨⟨by decide, by decide, by decide⟩, rfl⟩

/-- C3, amended: for every valid render context whose name, title and author
contain no marker sequences of their own, the rendered output of either
shipped template (content and path alike) contains no marker sequences. -/
theorem c3_theorem (ctx : RenderContext) (hv : ValidCtx ctx)
    (hn1 : hasSub openBraces ctx.name = false) (hn2 : hasSub closeBraces ctx.name = false)
    (ht1 : hasSub openBraces ctx.title = false) (ht2 : hasSub closeBraces ctx.title = false)
    (ha1 : hasSub openBraces ctx.author = false) (ha2 : hasSub closeBraces ctx.author = false) :
    hasSub openBraces (contentOf (render cTemplate ctx)) = false ∧
    hasSub closeBraces (contentOf (render cTemplate ctx)) = false ∧
    hasSub openBraces (pathOf (render cTemplate ctx)) = false ∧
    hasSub closeBraces (pathOf (render cTemplate ctx)) = false ∧
    hasSub openBraces (contentOf (render cppTemplate ctx)) = false ∧
    hasSub closeBraces (contentOf (render cppTemplate ctx)) = false ∧
    hasSub openBraces (pathOf (render cppTemplate ctx)) = false ∧
    hasSub closeBraces (pathOf (render cppTemplate ctx)) = false := by
  obtain ⟨n, t, a, ⟨b⟩⟩ := ctx
  rw [render_c, render_cpp]
  simp only [contentOf, pathOf]
  refine ⟨?_, ?_, ?_, ?_, ?_, ?_, ?_, ?_⟩
  · cases b
    · rw [cOut_false_shape]
      exact hasSub_shape_false _ _ _ _ _ _ _ (by decide) (by decide) (by decide) (by decide)
        ht1 ha1 (by decide) (by decide) (by decide) (by decide) (by decide) (by decide)
    · rw [cOut_true_shape]
      exact hasSub_shape_false _ _ _ _ _ _ _ (by decide) (by decide) (by decide) (by decide)
        ht1 ha1 (by decide) (by decide) (by decide) (by decide) (by decide) (by decide)
  · cases b
    · rw [cOut_false_shape]
      exact hasSub_shape_false _ _ _ _ _ _ _ (by decide) (by decide) (by decide) (by decide)
        ht2 ha2 (by decide) (by decide) (by decide) (by decide) (by decide) (by decide)
    · rw [cOut_true_shape]
      exact hasSub_shape_false _ _ _ _ _ _ _ (by decide) (by decide) (by decide) (by decide)
        ht2 ha2 (by decide) (by decide) (by decide) (by decide) (by decide) (by decide)
  · exact hasSub_append_false_pair _ _ _ hn1 (by decide) (by decide)
  · exact hasSub_append_false_pair _ _ _ hn2 (by decide) (by decide)
  · cases b
    · rw [cppOut_false_shape]
      exact hasSub_shape_false _ _ _ _ _ _ _ (by decide) (by decide) (by decide) (by decide)
        ht1 ha1 (by decide) (by decide) (by decide) (by decide) (by decide) (by decide)
    · rw [cppOut_true_shape]
      exact hasSub_shape_false _ _ _ _ _ _ _ (by decide) (by decide) (by decide) (by decide)
        ht1 ha1 (by decide) (by decide) (by decide) (by decide) (by decide) (by decide)
  · cases b
    · rw [cppOut_false_shape]
      exact hasSub_shape_false _ _ _ _ _ _ _ (by decide) (by decide) (by decide) (by decide)
        ht2 ha2 (by decide) (by decide) (by decide) (by decide) (by decide) (by decide)
    · rw [cppOut_true_shape]
      exact hasSub_shape_false _ _ _ _ _ _ _ (by decide) (by decide) (by decide) (by decide)
        ht2 ha2 (by decide) (by decide) (by decide) (by decide) (by decide) (by decide)
  · exact hasSub_append_false_pair _ _ _ hn1 (by decide) (by decide)
  · exact hasSub_append_false_pair _ _ _ hn2 (by decide) (by decide)

/-- C3, witness: the amended statement applied to the scenario context, whose
fields contain no marker sequences. -/
theorem c3_witness :
    ValidCtx demoCtx ∧
    hasSub openBraces demoCtx.name = false ∧ hasSub closeBraces demoCtx.name = false ∧
    hasSub openBraces demoCtx.title = false ∧ hasSub closeBraces demoCtx.title = false ∧
    hasSub openBraces demoCtx.author = false ∧ hasSub closeBraces demoCtx.author = false ∧
    (hasSub openBraces (contentOf (render cTemplate demoCtx)) = false ∧
    hasSub closeBraces (contentOf (render cTemplate demoCtx)) = false ∧
    hasSub openBraces (pathOf (render cTemplate demoCtx)) = false ∧
    hasSub closeBraces (pathOf (render cTemplate demoCtx)) = false ∧
    hasSub openBraces (contentOf (render cppTemplate demoCtx)) = false ∧
    hasSub closeBraces (contentOf (render cppTemplate demoCtx)) = false ∧
    hasSub openBraces (pathOf (render cppTemplate demoCtx)) = false ∧
    hasSub closeBraces (pathOf (render cppTemplate demoCtx)) = false) :=
  ⟨⟨by decide, by decide, by decide⟩, by decide, by decide, by decide, by decide,
    by decide, by decide,
    c3_theorem demoCtx ⟨by decide, by decide, by decide⟩ (by decide) (by decide) (by decide)
      (by decide) (by decide) (by decide)⟩

/-- C4: every placeholder path the shipped templates reference (.app.name in
the file-name patterns, .app.title, .app.author and the conditional flag
.app.options.include_libhlapi in the bodies) resolves in every valid render
context, so rendering either template with a valid context always succeeds
and in particular never fails with an unresolved reference. -/
theorem c4_theorem (ctx : RenderContext) (hv : ValidCtx ctx) :
    (∃ f, render cTemplate ctx = Except.ok f) ∧
    ∃ g, render cppTemplate ctx = Except.ok g := by
  obtain ⟨n, t, a, ⟨b⟩⟩ := ctx
  exact ⟨⟨_, render_c n t a b⟩, ⟨_, render_cpp n t a b⟩⟩

/-- C4, witness: rendering succeeds at the scenario context. -/
theorem c4_witness :
    ValidCtx demoCtx ∧
    ((∃ f, render cTemplate demoCtx = Except.ok f) ∧
    ∃ g, render cppTemplate demoCtx = Except.ok g) :=
  ⟨⟨by decide, by decide, by decide⟩, c4_theorem demoCtx ⟨by decide, by decide, by decide⟩⟩

theorem content_c (n t a : List Char) (b : Bool) :
    contentOf (render cTemplate ⟨n, t, a, ⟨b⟩⟩) = cOut b t a := by
  rw [render_c]
  rfl

theorem content_cpp (n t a : List Char) (b : Bool) :
    contentOf (render cppTemplate ⟨n, t, a, ⟨b⟩⟩) = cppOut b t a := by
  rw [render_cpp]
  rfl

theorem cOut_line10 (b : Bool) (t a : List Char) :
    cOut b t a = (chunkCA ++ (t ++ (chunkCB ++ (a ++ cLine10Pre)))) ++
      ('\n' :: '/' :: '/' :: (condText b ++ ('\n' :: (cC2Tail ++ (t ++ chunkCD))))) := by
  cases b <;>
    simp [cOut, condText, chunkCA, chunkCB, chunkCC1, chunkCC2, incText,
      cLine10Pre, cC2Tail, List.append_assoc]

theorem cppOut_line10 (b : Bool) (t a : List Char) :
    cppOut b t a = (chunkPA ++ (t ++ (chunkPB ++ (a ++ cLine10Pre)))) ++
      ('\n' :: '/' :: '/' :: (condText b ++ ('\n' :: (pC2Tail ++ (t ++ chunkPD))))) := by
  cases b <;>
    simp [cppOut, condText, chunkPA, chunkPB, chunkPC1, chunkPC2, incText,
      cLine10Pre, pC2Tail, List.append_assoc]

/-- C5: for every render context, and for either shipped template, the
rendered text derived from line 10 forms a full line that begins with the
comment prefix of two slashes and continues with the conditional text (the
include directive when the flag is true, nothing when it is false); the
conditional text contains no newline, so that line is never split. -/
theorem c5_theorem (ctx : RenderContext) :
    (∃ pre post, contentOf (render cTemplate ctx) =
        pre ++ ('\n' :: '/' :: '/' ::
          (condText ctx.options.include_libhlapi ++ ('\n' :: post))) ∧
        '\n' ∉ condText ctx.options.include_libhlapi) ∧
    (∃ pre post, contentOf (render cppTemplate ctx) =
        pre ++ ('\n' :: '/' :: '/' ::
          (condText ctx.options.include_libhlapi ++ ('\n' :: post))) ∧
        '\n' ∉ condText ctx.options.include_libhlapi) := by
  obtain ⟨n, t, a, ⟨b⟩⟩ := ctx
  constructor
  · refine ⟨chunkCA ++ (t ++ (chunkCB ++ (a ++ cLine10Pre))), cC2Tail ++ (t ++ chunkCD), ?_, ?_⟩
    · rw [content_c, cOut_line10]
    · cases b
      · show '\n' ∉ condText false
        decide
      · show '\n' ∉ condText true
        decide
  · refine ⟨chunkPA ++ (t ++ (chunkPB ++ (a ++ cLine10Pre))), pC2Tail ++ (t ++ chunkPD), ?_, ?_⟩
    · rw [content_cpp, cppOut_line10]
    · cases b
      · show '\n' ∉ condText false
        decide
      · show '\n' ∉ condText true
        decide

/-- C6: the substitution engine is a pure function, so rendering the same
template against the same context twice yields identical output. -/
theorem c6_theorem (t : Template) (ctx : RenderContext) :
    render t ctx = render t ctx := rfl

/-- C7: when the requested ecosystem key is registered but any of the
required descriptor fields name, title or author is empty (in particular a
missing author), the driver fails with the validation error and writes no
file: validation precedes the substitution engine and the file emitter. -/
theorem c7_theorem (key : List Char) (ctx : RenderContext)
    (hk : ∃ t, lookup key = Except.ok t)
    (h : ctx.name = [] ∨ ctx.title = [] ∨ ctx.author = []) :
    driver key ctx = Except.error DriverError.validationError ∧
    writtenFiles (driver key ctx) = [] := by
  obtain ⟨t, ht⟩ := hk
  have hd : driver key ctx = Except.error DriverError.validationError := by
    unfold driver
    rw [ht]
    simp only [if_pos h]
  exact ⟨hd, by rw [hd]; rfl⟩

/-- C7, witness: the driver rejects the scenario context with its author
field emptied, for the registered key c, and writes nothing. -/
theorem c7_witness :
    (∃ t, lookup cEcoKey = Except.ok t) ∧
    (noAuthorCtx.name = [] ∨ noAuthorCtx.title = [] ∨ noAuthorCtx.author = []) ∧
    (driver cEcoKey noAuthorCtx = Except.error DriverError.validationError ∧
    writtenFiles (driver cEcoKey noAuthorCtx) = []) :=
  ⟨⟨cTemplate, rfl⟩, Or.inr (Or.inr rfl),
    c7_theorem cEcoKey noAuthorCtx ⟨cTemplate, rfl⟩ (Or.inr (Or.inr rfl))⟩

/-- C8: the template store lookup returns the shipped C template for key c
and the shipped C++ template for key cpp, and fails with not-found for every
other key, in particular for the key nonexistent. -/
theorem c8_theorem :
    lookup cEcoKey = Except.ok cTemplate ∧
    lookup cppEcoKey = Except.ok cppTemplate ∧
    lookup nonexistentKey = Except.error LookupError.notFound ∧
    ∀ key, key ≠ cEcoKey → key ≠ cppEcoKey →
      lookup key = Except.error LookupError.notFound := by
  refine ⟨rfl, rfl, rfl, ?_⟩
  intro key h1 h2
  have e1 : (cTemplate.ecosystem == key) = false :=
    beq_eq_false_iff_ne.mpr fun e => h1 e.symm
  have e2 : (cppTemplate.ecosystem == key) = false :=
    beq_eq_false_iff_ne.mpr fun e => h2 e.symm
  simp [lookup, templateStore, List.find?, e1, e2]

/-- C8, witness: an arbitrary unregistered key fails with not-found. -/
theorem c8_witness :
    ['g', 'o'] ≠ cEcoKey ∧ ['g', 'o'] ≠ cppEcoKey ∧
    lookup ['g', 'o'] = Except.error LookupError.notFound :=
  ⟨by decide, by decide, c8_theorem.2.2.2 ['g', 'o'] (by decide) (by decide)⟩

/-- C9: for every context whose name field is demo, the substituted file-name
pattern of the C template yields the output path demo.c and that of the C++
template yields demo.cpp. -/
theorem c9_theorem (ctx : RenderContext) (h : ctx.name = demoNameChars) :
    pathOf (render cTemplate ctx) = demoDotC ∧
    pathOf (render cppTemplate ctx) = demoDotCpp := by
  obtain ⟨n, t, a, ⟨b⟩⟩ := ctx
  rw [render_c, render_cpp]
  subst h
  exact ⟨rfl, rfl⟩

/-- C9, witness: the scenario context yields the paths demo.c and demo.cpp. -/
theorem c9_witness :
    demoCtx.name = demoNameChars ∧
    (pathOf (render cTemplate demoCtx) = demoDotC ∧
    pathOf (render cppTemplate demoCtx) = demoDotCpp) :=
  ⟨rfl, c9_theorem demoCtx rfl⟩

/-- C10: the rendered body content of either shipped template is independent
of the context's name field: two valid contexts agreeing on title, author and
options yield byte-identical content. -/
theorem c10_theorem (ctx ctx' : RenderContext) (hv : ValidCtx ctx) (hv' : ValidCtx ctx')
    (ht : ctx.title = ctx'.title) (ha : ctx.author = ctx'.author)
    (ho : ctx.options = ctx'.options) :
    contentOf (render cTemplate ctx) = contentOf (render cTemplate ctx') ∧
    contentOf (render cppTemplate ctx) = contentOf (render cppTemplate ctx') := by
  obtain ⟨n, t, a, ⟨b⟩⟩ := ctx
  obtain ⟨n', t', a', ⟨b'⟩⟩ := ctx'
  dsimp only at ht ha ho
  injection ho with hb
  subst ht
  subst ha
  subst hb
  rw [content_c, content_c, content_cpp, content_cpp]
  exact ⟨rfl, rfl⟩

/-- C10, witness: the scenario context and the same context under another
name produce identical content for both templates. -/
theorem c10_witness :
    ValidCtx demoCtx ∧ ValidCtx otherNameCtx ∧
    demoCtx.title = otherNameCtx.title ∧ demoCtx.author = otherNameCtx.author ∧
    demoCtx.options = otherNameCtx.options ∧
    (contentOf (render cTemplate demoCtx) = contentOf (render cTemplate otherNameCtx) ∧
    contentOf (render cppTemplate demoCtx) = contentOf (render cppTemplate otherNameCtx)) :=
  ⟨⟨by decide, by decide, by decide⟩, ⟨by decide, by decide, by decide⟩, rfl, rfl, rfl,
    c10_theorem demoCtx otherNameCtx ⟨by decide, by decide, by decide⟩
      ⟨by decide, by decide, by decide⟩ rfl rfl rfl⟩

end Corteca
